import Mathlib

/-!
Verification of the layered user API (fastify-supabase boilerplate).

Shallow embedding of the repository's core:
  - `src/infrastructure/database/SupabaseUserRepository.ts` (repository layer),
  - `src/application/services/UserService.ts` (service layer),
  - `src/infrastructure/web/routes/user/user.handler.ts` (handler layer),
  - the `/health` handler of `src/app.ts`.

JavaScript values that may be `undefined` are modelled as `Option String`.
The Supabase client is modelled as a state (`Store`) holding the table rows
plus injectable failure outcomes for select and insert queries; every query
threads the state and bumps an operation counter, so "the repository was
never contacted" is expressible as counter preservation.
-/

/-- A PostgREST error value as surfaced by the Supabase client:
`error.code` (e.g. `'23505'`) and `error.message`. -/
structure PgError where
  code : String
  message : String
deriving DecidableEq, Repr

/-- A raw row of the `users` table as returned by the store. Every field is
`Option String` because a malformed row may lack any of them (JS `undefined`). -/
structure DbRow where
  id : Option String
  email : Option String
  username : Option String
  password : Option String
  created_at : Option String
  updated_at : Option String
deriving DecidableEq, Repr

/-- The `{ data, error }` pair returned by a Supabase query
(`maybeSingle` / `single`). -/
structure PgResult where
  error : Option PgError
  data : Option DbRow
deriving DecidableEq, Repr

/-- The modelled Supabase store: the rows of the `users` table, injectable
failure outcomes (`selectError` for select queries, `insertError` for the
insert, `insertReturnsRow := false` for the anomalous "insert returned no
data" outcome), the server-assigned values for the next insert (`freshId`,
`now`), and counters of performed select/insert queries. -/
structure Store where
  rows : List DbRow
  selectError : Option PgError
  insertError : Option PgError
  insertReturnsRow : Bool
  freshId : String
  now : String
  selects : Nat
  inserts : Nat
deriving DecidableEq, Repr

/-- Models `supabase.from('users').select('*').eq(field, v).maybeSingle()`:
on an injected failure returns `{ error, data: null }`, otherwise the first
row matching the predicate (or null). Bumps the select counter. -/
def supaSelectMaybeSingle (st : Store) (p : DbRow → Bool) : PgResult × Store :=
  (⟨st.selectError, if st.selectError.isSome then none else st.rows.find? p⟩,
   { st with selects := st.selects + 1 })

/-- The object inserted by `SupabaseUserRepository.create`:
`{ email: userData.email, username: userData.username, password: userData.password }`. -/
structure InsertData where
  email : String
  username : Option String
  password : Option String
deriving DecidableEq, Repr

/-- The canonical stored row produced by a successful insert: the store
assigns `id`, `created_at`, `updated_at`; the DTO supplies the rest. -/
def insertedRow (st : Store) (d : InsertData) : DbRow :=
  { id := some st.freshId, email := some d.email, username := d.username,
    password := d.password, created_at := some st.now, updated_at := some st.now }

/-- Models `supabase.from('users').insert(dbData).select('*').single()`:
an injected failure yields `{ error, data: null }`; otherwise the new row is
stored and re-read, unless `insertReturnsRow` is false (the anomalous
"no data returned" outcome). Bumps the insert counter. -/
def supaInsertSingle (st : Store) (d : InsertData) : PgResult × Store :=
  match st.insertError with
  | some e => (⟨some e, none⟩, { st with inserts := st.inserts + 1 })
  | none =>
    if st.insertReturnsRow then
      (⟨none, some (insertedRow st d)⟩,
       { st with rows := insertedRow st d :: st.rows, inserts := st.inserts + 1 })
    else
      (⟨none, none⟩, { st with inserts := st.inserts + 1 })

/-- The domain `User` object built by `mapToDomain`. Fields are `Option` to
reflect the runtime: a row lacking a field yields `undefined` here (and an
Invalid Date for the timestamps), not a failure. -/
structure DomainUser where
  id : Option String
  email : Option String
  username : Option String
  password : Option String
  created_at : Option String
  updated_at : Option String
deriving DecidableEq, Repr

/-- Models the JS `new Date(x)` conversion at the value granularity the
claims need: a defined input yields a valid date carrying it, an undefined
input yields an Invalid Date (modelled `none`). -/
def jsNewDate (s : Option String) : Option String := s

/-- The field-by-field body of `SupabaseUserRepository.mapToDomain` on a
present row: each column is copied (possibly `undefined`), the timestamps
go through `new Date(...)`. No field presence is checked. -/
def mapRowToDomain (r : DbRow) : DomainUser :=
  { id := r.id, email := r.email, username := r.username, password := r.password,
    updated_at := jsNewDate r.updated_at, created_at := jsNewDate r.created_at }

/-- Embeds `SupabaseUserRepository.mapToDomain`: `if (!dbUser) return null`, else the
field-by-field mapping. -/
def mapToDomain (dbUser : Option DbRow) : Option DomainUser :=
  match dbUser with
  | none => none
  | some r => some (mapRowToDomain r)

/-- The closed error taxonomy crossing layer boundaries at runtime:
`ApplicationError { code, message }` (service layer), `DatabaseError`
(repository layer, discriminated by its message), or any other unclassified
JS exception. -/
inductive AppErr where
  | applicationError (code : Nat) (message : String)
  | databaseError (message : String)
  | jsError (message : String)
deriving DecidableEq, Repr

/-- Embeds `SupabaseUserRepository.findById`: select by id with `maybeSingle`;
`handleError` turns a store failure into
`DatabaseError('Database operation failed: findById <id>')`; otherwise the
row (or null) is mapped to the domain. -/
def repoFindById (id : String) (st : Store) :
    Except AppErr (Option DomainUser) × Store :=
  let q := supaSelectMaybeSingle st (fun r => r.id = some id)
  match q.1.error with
  | some _ =>
      (.error (.databaseError ("Database operation failed: findById " ++ id)), q.2)
  | none => (.ok (mapToDomain q.1.data), q.2)

/-- Embeds `SupabaseUserRepository.findByEmail`: select by email with `maybeSingle`;
`handleError` on failure, else the mapped row (or null). -/
def repoFindByEmail (email : String) (st : Store) :
    Except AppErr (Option DomainUser) × Store :=
  let q := supaSelectMaybeSingle st (fun r => r.email = some email)
  match q.1.error with
  | some _ =>
      (.error (.databaseError ("Database operation failed: findByEmail " ++ email)), q.2)
  | none => (.ok (mapToDomain q.1.data), q.2)

/-- The creation DTO. `email` is a `String` (the route's body schema requires
it and the transport validates it before the handler runs); `username` and
`password` are not required by the registered route schema, hence `Option`. -/
structure CreateUserDTO where
  email : String
  username : Option String
  password : Option String
deriving DecidableEq, Repr

/-- The `dbData` object built inside `SupabaseUserRepository.create`. -/
def dbDataOf (dto : CreateUserDTO) : InsertData :=
  ⟨dto.email, dto.username, dto.password⟩

/-- Embeds `SupabaseUserRepository.create`: insert + `single()` re-read; on
`error || !data`, a `23505` error code yields the unique-violation
`DatabaseError`, any other error yields the `handleError` message, and a
missing result row yields the no-data `DatabaseError`; on success the
re-read row is mapped to the domain (with a defensive dead branch if the
mapping were null). -/
def repoCreate (dto : CreateUserDTO) (st : Store) : Except AppErr DomainUser × Store :=
  let q := supaInsertSingle st (dbDataOf dto)
  match q.1.error, q.1.data with
  | some e, _ =>
      if e.code = "23505" then
        (.error (.databaseError "Unique constraint violation (e.g., email already exists)"), q.2)
      else
        (.error (.databaseError
          ("Database operation failed: create user with email " ++ dto.email)), q.2)
  | none, none =>
      (.error (.databaseError "User creation failed: No data returned from database"), q.2)
  | none, some row =>
      match mapToDomain (some row) with
      | none => (.error (.databaseError "Failed to map created user data to domain object."), q.2)
      | some u => (.ok u, q.2)

/-- Embeds `UserService.getUserById`: the id-format precondition
`!id || typeof id !== 'string' || id.length < 1` (for a string: emptiness)
throws `ApplicationError(400)`; otherwise the repository lookup's result
(user or null) is returned, and its `DatabaseError` propagates unchanged
(there is no try/catch around `findById`). -/
def userServiceGetUserById (id : String) (st : Store) :
    Except AppErr (Option DomainUser) × Store :=
  if id = "" ∨ id.length < 1 then
    (.error (.applicationError 400 "Invalid user ID format provided."), st)
  else
    match repoFindById id st with
    | (.error e, st') => (.error e, st')
    | (.ok none, st') => (.ok none, st')
    | (.ok (some u), st') => (.ok (some u), st')

/-- Embeds `UserService.createUser`: uniqueness pre-check via `findByEmail` (outside
any try/catch, so its `DatabaseError` propagates unwrapped); an existing user
throws `ApplicationError(409)`; otherwise `repository.create` runs inside
try/catch and any of its failures is re-thrown as `ApplicationError(500)`. -/
def userServiceCreateUser (dto : CreateUserDTO) (st : Store) :
    Except AppErr DomainUser × Store :=
  match repoFindByEmail dto.email st with
  | (.error e, st') => (.error e, st')
  | (.ok (some _), st') =>
      (.error (.applicationError 409 "User with this email already exists."), st')
  | (.ok none, st') =>
      match repoCreate dto st' with
      | (.ok u, st'') => (.ok u, st'')
      | (.error _, st'') =>
          (.error (.applicationError 500 "Failed to create user due to a database issue."), st'')

/-- The response DTO produced by `mapUserToResponse`: exactly the fields
`id`, `email`, `created_at`. -/
structure UserResponse where
  id : Option String
  email : Option String
  created_at : Option String
deriving DecidableEq, Repr

/-- Embeds `mapUserToResponse` from `user.handler.ts`: picks `id`, `email` and
`new Date(user.created_at)`; every other field (`password` included) is
dropped. -/
def mapUserToResponse (u : DomainUser) : UserResponse :=
  { id := u.id, email := u.email, created_at := jsNewDate u.created_at }

/-- Serialization of a `UserResponse` as the ordered key/value pairs of the
JSON object sent in the reply body. -/
def userResponseFields (r : UserResponse) : List (String × Option String) :=
  [("id", r.id), ("email", r.email), ("created_at", r.created_at)]

/-- The body of an HTTP reply: either a serialized user DTO or one of the
`@fastify/sensible` error bodies `{ statusCode, error, message }`. -/
inductive RespBody where
  | userBody (r : UserResponse)
  | httpError (statusCode : Nat) (error : String) (message : String)
deriving DecidableEq, Repr

/-- An HTTP response: status code plus body. -/
structure Response where
  status : Nat
  body : RespBody
deriving DecidableEq, Repr

/-- Embeds `reply.conflict(m)` from `@fastify/sensible`. -/
def replyConflict (m : String) : Response := ⟨409, .httpError 409 "Conflict" m⟩

/-- Embeds `reply.badRequest(m)` from `@fastify/sensible`. -/
def replyBadRequest (m : String) : Response := ⟨400, .httpError 400 "Bad Request" m⟩

/-- Embeds `reply.notFound(m)` from `@fastify/sensible`. -/
def replyNotFound (m : String) : Response := ⟨404, .httpError 404 "Not Found" m⟩

/-- Embeds `reply.internalServerError(m)` from `@fastify/sensible`. -/
def replyInternalServerError (m : String) : Response :=
  ⟨500, .httpError 500 "Internal Server Error" m⟩

/-- The catch block of `UserHandler.createUser`: `ApplicationError` 409 →
conflict, 400 → bad request, other codes fall through; `DatabaseError` →
generic database 500; anything else → generic unexpected 500. -/
def userHandlerCreateUserCatch (e : AppErr) : Response :=
  match e with
  | .applicationError 409 m => replyConflict m
  | .applicationError 400 m => replyBadRequest m
  | .applicationError _ _ =>
      replyInternalServerError "An unexpected error occurred while creating the user."
  | .databaseError _ =>
      replyInternalServerError "A database error occurred while creating the user."
  | .jsError _ =>
      replyInternalServerError "An unexpected error occurred while creating the user."

/-- Embeds `UserHandler.createUser`: on service success, 201 with the mapped
response DTO; on a thrown error, the catch block's mapping. -/
def userHandlerCreateUser (dto : CreateUserDTO) (st : Store) : Response × Store :=
  match userServiceCreateUser dto st with
  | (.ok u, st') => (⟨201, .userBody (mapUserToResponse u)⟩, st')
  | (.error e, st') => (userHandlerCreateUserCatch e, st')

/-- The catch block of `UserHandler.getUserById`: `ApplicationError` with
code 400 → bad request; `DatabaseError` → generic database 500; anything
else (other `ApplicationError` codes included) → generic unexpected 500. -/
def userHandlerGetUserByIdCatch (e : AppErr) : Response :=
  match e with
  | .applicationError 400 m => replyBadRequest m
  | .databaseError _ =>
      replyInternalServerError "A database error occurred while fetching the user."
  | _ =>
      replyInternalServerError "An unexpected error occurred while fetching the user."

/-- Embeds `UserHandler.getUserById`: a null service result yields
`reply.notFound('User with ID <id> not found.')`; a user yields 200 with the
mapped response DTO; a thrown error goes through the catch block. -/
def userHandlerGetUserById (userId : String) (st : Store) : Response × Store :=
  match userServiceGetUserById userId st with
  | (.error e, st') => (userHandlerGetUserByIdCatch e, st')
  | (.ok none, st') =>
      (replyNotFound ("User with ID " ++ userId ++ " not found."), st')
  | (.ok (some u), st') => (⟨200, .userBody (mapUserToResponse u)⟩, st')

/-- In `userRoutes` (GET `/:userId`), the schema attaches no params schema:
the `params: jsonSchema.userIdParams` line is commented out in the source,
so no identifier-format validation happens at the transport layer. -/
def userRoutesGetParamsSchema : Option String := none

/-- A health response: status code plus a JSON object given as ordered
key/value string pairs. -/
structure HealthResponse where
  status : Nat
  body : List (String × String)
deriving DecidableEq, Repr

/-- The `GET /health` handler of `app.ts`: a head-count select on `users`
(`nowIso` stands for `new Date().toISOString()`); success yields 200
`{status, timestamp}`; a store failure is re-thrown as
`Error('Supabase reachability check failed: <msg>')` and caught, yielding
503 `{status, message, error: err.message, timestamp}`. -/
def healthHandler (st : Store) (nowIso : String) : HealthResponse × Store :=
  let st' := { st with selects := st.selects + 1 }
  match st.selectError with
  | none => (⟨200, [("status", "ok"), ("timestamp", nowIso)]⟩, st')
  | some e =>
      (⟨503, [("status", "error"), ("message", "Service unavailable"),
              ("error", "Supabase reachability check failed: " ++ e.message),
              ("timestamp", nowIso)]⟩, st')

/-- The properties declared by the 503 response schema of the `/health`
route in `app.ts`. -/
def health503SchemaProps : List String := ["status", "message", "timestamp"]

/-- The properties declared by the 200 response schema of the `/health`
route in `app.ts`. -/
def health200SchemaProps : List String := ["status", "timestamp"]

/-- Modelled from the spec: the external schema-validating router serializes
a response body against the declared response schema, retaining only the
declared properties (§6 collaborator (a) of the specification). -/
def serializeWithSchema (props : List String) (body : List (String × String)) :
    List (String × String) :=
  body.filter (fun kv => props.contains kv.1)

/-! ### Concrete fixtures used by witnesses and counterexamples -/

/-- A healthy empty store: no rows, no injected failures. -/
def sampleStore : Store :=
  { rows := [], selectError := none, insertError := none, insertReturnsRow := true,
    freshId := "11111111-1111-1111-1111-111111111111",
    now := "2026-01-01T00:00:00Z", selects := 0, inserts := 0 }

/-- A well-formed stored row. -/
def sampleRow : DbRow :=
  { id := some "22222222-2222-2222-2222-222222222222", email := some "a@b.com",
    username := some "alice", password := some "hunter2secret",
    created_at := some "2025-12-31T00:00:00Z", updated_at := some "2025-12-31T00:00:00Z" }

/-- A healthy store already holding `sampleRow`. -/
def sampleStoreWithRow : Store := { sampleStore with rows := [sampleRow] }

/-- A store whose select queries fail (unreachable backend). -/
def sampleSelectFailStore : Store :=
  { sampleStore with selectError := some ⟨"08006", "connection refused"⟩ }

/-- A store whose insert fails with the PostgreSQL unique-violation code. -/
def sampleUniqueFailStore : Store :=
  { sampleStore with insertError := some ⟨"23505", "duplicate key value"⟩ }

/-- A creation DTO used in witnesses. -/
def sampleDTO : CreateUserDTO :=
  ⟨"a@b.com", some "alice", some "hunter2secret"⟩

/-- The two fixed generic 500 messages of `UserHandler.createUser`. -/
def createUserGeneric500 : List String :=
  ["A database error occurred while creating the user.",
   "An unexpected error occurred while creating the user."]

/-- The two fixed generic 500 messages of `UserHandler.getUserById`. -/
def getUserGeneric500 : List String :=
  ["A database error occurred while fetching the user.",
   "An unexpected error occurred while fetching the user."]

/-- A row missing every required field except `id`: the mapping claim says
it must be rejected. -/
def malformedRow : DbRow :=
  { id := some "33333333-3333-3333-3333-333333333333", email := none, username := none,
    password := none, created_at := none, updated_at := none }

/-! ### Helper lemmas -/

/-- A non-empty string fails neither disjunct of the service's id check. -/
lemma not_id_precond_of_ne_empty (s : String) (h : s ≠ "") :
    ¬(s = "" ∨ s.length < 1) := by
  rcases s with ⟨l⟩
  cases l with
  | nil => exact absurd rfl h
  | cons a as =>
    push_neg
    refine ⟨h, ?_⟩
    simp [String.length]

/-- The head of string-append data is the head of the first summand. -/
lemma head_data_append (a b : String) (c : Char) (h : a.data.head? = some c) :
    (a ++ b).data.head? = some c := by
  rw [String.data_append]
  cases hd : a.data with
  | nil => rw [hd] at h; exact absurd h (by simp)
  | cons x xs => rw [hd] at h; simp_all

/-- The `handleError` message for a failed insert is never the
unique-violation message, whatever the email suffix. -/
lemma dbOpFailed_ne_uniqueMsg (s : String) :
    "Database operation failed: create user with email " ++ s ≠
      "Unique constraint violation (e.g., email already exists)" := by
  intro h
  have hD : ("Database operation failed: create user with email " ++ s).data.head? =
      some 'D' := head_data_append _ _ _ rfl
  rw [h] at hD
  have hU : ("Unique constraint violation (e.g., email already exists)" : String).data.head? =
      some 'U' := rfl
  rw [hU] at hD
  exact absurd (Option.some.inj hD) (by decide)

/-- Characterization of `repoFindById` by case on the injected select
outcome. -/
lemma repoFindById_eq (id : String) (st : Store) :
    repoFindById id st =
      ((match st.selectError with
        | some _ =>
            .error (.databaseError ("Database operation failed: findById " ++ id))
        | none => .ok (mapToDomain (st.rows.find? (fun r => r.id = some id)))),
       { st with selects := st.selects + 1 }) := by
  cases h : st.selectError <;> simp [repoFindById, supaSelectMaybeSingle, h]

/-- Characterization of `repoFindByEmail` by case on the injected select
outcome. -/
lemma repoFindByEmail_eq (email : String) (st : Store) :
    repoFindByEmail email st =
      ((match st.selectError with
        | some _ =>
            .error (.databaseError ("Database operation failed: findByEmail " ++ email))
        | none => .ok (mapToDomain (st.rows.find? (fun r => r.email = some email)))),
       { st with selects := st.selects + 1 }) := by
  cases h : st.selectError <;> simp [repoFindByEmail, supaSelectMaybeSingle, h]

/-- Characterization of `repoCreate` by case on the injected insert
outcome. -/
lemma repoCreate_eq (dto : CreateUserDTO) (st : Store) :
    repoCreate dto st =
      ((match st.insertError with
        | some e =>
            if e.code = "23505" then
              .error (.databaseError "Unique constraint violation (e.g., email already exists)")
            else
              .error (.databaseError
                ("Database operation failed: create user with email " ++ dto.email))
        | none =>
            if st.insertReturnsRow then
              .ok (mapRowToDomain (insertedRow st (dbDataOf dto)))
            else
              .error (.databaseError "User creation failed: No data returned from database")),
       (match st.insertError with
        | some _ => { st with inserts := st.inserts + 1 }
        | none =>
            if st.insertReturnsRow then
              { st with rows := insertedRow st (dbDataOf dto) :: st.rows,
                        inserts := st.inserts + 1 }
            else
              { st with inserts := st.inserts + 1 })) := by
  cases h : st.insertError with
  | some e =>
      by_cases hc : e.code = "23505" <;>
        simp [repoCreate, supaInsertSingle, h, hc]
  | none =>
      cases hr : st.insertReturnsRow <;>
        simp [repoCreate, supaInsertSingle, h, hr, mapToDomain]

/-- Every error produced by `repoFindById` is the `handleError` database
error for the `findById` context. -/
lemma repoFindById_error_shape (id : String) (st : Store) (e : AppErr)
    (h : (repoFindById id st).1 = .error e) :
    e = .databaseError ("Database operation failed: findById " ++ id) := by
  rw [repoFindById_eq] at h
  cases hsel : st.selectError with
  | some pe => rw [hsel] at h; simp at h; exact h.symm
  | none =>
      rw [hsel] at h
      cases hfind : st.rows.find? (fun r => r.id = some id) <;>
        simp [hfind, mapToDomain] at h

/-- Every error produced by `repoFindByEmail` is the `handleError` database
error for the `findByEmail` context. -/
lemma repoFindByEmail_error_shape (email : String) (st : Store) (e : AppErr)
    (h : (repoFindByEmail email st).1 = .error e) :
    e = .databaseError ("Database operation failed: findByEmail " ++ email) := by
  rw [repoFindByEmail_eq] at h
  cases hsel : st.selectError with
  | some pe => rw [hsel] at h; simp at h; exact h.symm
  | none =>
      rw [hsel] at h
      cases hfind : st.rows.find? (fun r => r.email = some email) <;>
        simp [hfind, mapToDomain] at h

/-- Every error produced by `UserService.getUserById` is either the 400
format error or the repository's `findById` database error. -/
lemma getUserById_error_shape (id : String) (st : Store) (e : AppErr)
    (h : (userServiceGetUserById id st).1 = .error e) :
    e = .applicationError 400 "Invalid user ID format provided." ∨
    e = .databaseError ("Database operation failed: findById " ++ id) := by
  unfold userServiceGetUserById at h
  split at h
  · simp at h
    exact Or.inl h.symm
  · split at h
    · next e' st' heq =>
        simp at h
        have h1 : (repoFindById id st).1 = .error e' := by rw [heq]
        exact Or.inr (h ▸ repoFindById_error_shape id st e' h1)
    · simp at h
    · simp at h

/-- Every error produced by `UserService.createUser` is the 409 conflict,
the 500 wrap of a failed insert, or the unwrapped `findByEmail` database
error. -/
lemma createUser_error_shape (dto : CreateUserDTO) (st : Store) (e : AppErr)
    (h : (userServiceCreateUser dto st).1 = .error e) :
    e = .applicationError 409 "User with this email already exists." ∨
    e = .applicationError 500 "Failed to create user due to a database issue." ∨
    e = .databaseError ("Database operation failed: findByEmail " ++ dto.email) := by
  unfold userServiceCreateUser at h
  split at h
  · next e' st' heq =>
      simp at h
      have h1 : (repoFindByEmail dto.email st).1 = .error e' := by rw [heq]
      exact Or.inr (Or.inr (h ▸ repoFindByEmail_error_shape dto.email st e' h1))
  · simp at h
    exact Or.inl h.symm
  · split at h
    · simp at h
    · simp at h
      exact Or.inr (Or.inl h.symm)

/-! ### Claim theorems -/

/-- Claim C3: every id value failing the identifier-format precondition of
the code (the empty string; the non-string case is untypable here) makes
`UserService.getUserById` fail with `ApplicationError` 400, and the
repository is never contacted: the store (its select counter included) is
returned unchanged. -/
theorem getUserById_invalid_id_400_no_repo_call (id : String) (st : Store)
    (h : id = "" ∨ id.length < 1) :
    userServiceGetUserById id st =
      (.error (.applicationError 400 "Invalid user ID format provided."), st) := by
  unfold userServiceGetUserById
  rw [if_pos h]

/-- Witness for C3 at the concrete empty id. -/
theorem getUserById_invalid_id_400_no_repo_call_witness :
    (("" : String) = "" ∨ ("" : String).length < 1) ∧
    userServiceGetUserById "" sampleStore =
      (.error (.applicationError 400 "Invalid user ID format provided."), sampleStore) :=
  ⟨Or.inl rfl, getUserById_invalid_id_400_no_repo_call "" sampleStore (Or.inl rfl)⟩

/-- Claim C10: for every non-empty id string (UUID or not) the service never
raises any `ApplicationError` (in particular not the 400 format error) — the
only enforced precondition is non-emptiness — and the GET route attaches no
params schema (the line is commented out), so such ids reach the lookup. -/
theorem getUserById_nonempty_id_reaches_repo :
    (∀ (id : String) (st : Store), id ≠ "" →
      ∀ (c : Nat) (m : String),
        (userServiceGetUserById id st).1 ≠ .error (.applicationError c m)) ∧
    userRoutesGetParamsSchema = none := by
  refine ⟨?_, rfl⟩
  intro id st hid c m h
  unfold userServiceGetUserById at h
  rw [if_neg (not_id_precond_of_ne_empty id hid), repoFindById_eq] at h
  cases hsel : st.selectError with
  | some pe =>
      rw [hsel] at h
      simp at h
  | none =>
      rw [hsel] at h
      cases hfind : st.rows.find? (fun r => r.id = some id) <;>
        simp [hfind, mapToDomain] at h

/-- Witness for C10 at a concrete non-UUID non-empty id. -/
theorem getUserById_nonempty_id_reaches_repo_witness :
    ("not-a-uuid" : String) ≠ "" ∧
    (userServiceGetUserById "not-a-uuid" sampleStore).1 ≠
      .error (.applicationError 400 "Invalid user ID format provided.") :=
  ⟨by decide,
   getUserById_nonempty_id_reaches_repo.1 "not-a-uuid" sampleStore (by decide) 400
     "Invalid user ID format provided."⟩

/-- Claim C7: a well-formed (non-empty) id absent from the store makes the
service return null (not an error), and the handler turns that absence into
a 404 with the resource-specific message. -/
theorem getUserById_absent_null_and_404 (id : String) (st : Store)
    (hid : id ≠ "") (hsel : st.selectError = none)
    (habs : ∀ r ∈ st.rows, r.id ≠ some id) :
    (userServiceGetUserById id st).1 = .ok none ∧
    (userHandlerGetUserById id st).1 =
      replyNotFound ("User with ID " ++ id ++ " not found.") := by
  have hfind : st.rows.find? (fun r => r.id = some id) = none := by
    rw [List.find?_eq_none]
    intro x hx
    simpa using habs x hx
  have hsvc : userServiceGetUserById id st =
      (.ok none, { st with selects := st.selects + 1 }) := by
    unfold userServiceGetUserById
    rw [if_neg (not_id_precond_of_ne_empty id hid), repoFindById_eq, hsel, hfind]
    simp [mapToDomain]
  refine ⟨by rw [hsvc], ?_⟩
  unfold userHandlerGetUserById
  rw [hsvc]

/-- Witness for C7 at a concrete absent id. -/
theorem getUserById_absent_null_and_404_witness :
    (userServiceGetUserById "00000000-0000-0000-0000-000000000000"
        sampleStoreWithRow).1 = .ok none ∧
    (userHandlerGetUserById "00000000-0000-0000-0000-000000000000"
        sampleStoreWithRow).1 =
      replyNotFound
        ("User with ID " ++ "00000000-0000-0000-0000-000000000000" ++ " not found.") :=
  getUserById_absent_null_and_404 "00000000-0000-0000-0000-000000000000"
    sampleStoreWithRow (by decide) rfl (by decide)

/-- Claim C2: when the creation input's email already exists in the store
(and the pre-check query is answered by the store), `createUser` fails with
`ApplicationError` 409 and the insert is never performed: the rows and the
insert counter are unchanged. -/
theorem createUser_existing_email_409_no_insert (dto : CreateUserDTO) (st : Store)
    (hsel : st.selectError = none)
    (hex : ∃ r ∈ st.rows, r.email = some dto.email) :
    (userServiceCreateUser dto st).1 =
      .error (.applicationError 409 "User with this email already exists.") ∧
    (userServiceCreateUser dto st).2.rows = st.rows ∧
    (userServiceCreateUser dto st).2.inserts = st.inserts := by
  obtain ⟨r0, hr0, hr0e⟩ := hex
  have hsome : (st.rows.find? (fun r => r.email = some dto.email)).isSome := by
    rw [List.find?_isSome]
    exact ⟨r0, hr0, by simpa using hr0e⟩
  obtain ⟨r1, hfind⟩ := Option.isSome_iff_exists.mp hsome
  have hsvc : userServiceCreateUser dto st =
      (.error (.applicationError 409 "User with this email already exists."),
       { st with selects := st.selects + 1 }) := by
    unfold userServiceCreateUser
    rw [repoFindByEmail_eq, hsel, hfind]
    simp [mapToDomain]
  rw [hsvc]
  exact ⟨rfl, rfl, rfl⟩

/-- Witness for C2 at a concrete duplicate email. -/
theorem createUser_existing_email_409_no_insert_witness :
    (userServiceCreateUser sampleDTO sampleStoreWithRow).1 =
      .error (.applicationError 409 "User with this email already exists.") ∧
    (userServiceCreateUser sampleDTO sampleStoreWithRow).2.rows =
      sampleStoreWithRow.rows ∧
    (userServiceCreateUser sampleDTO sampleStoreWithRow).2.inserts =
      sampleStoreWithRow.inserts :=
  createUser_existing_email_409_no_insert sampleDTO sampleStoreWithRow rfl
    ⟨sampleRow, by decide, by decide⟩

/-- Claim C1: every error crossing the service boundary (for `getUserById`
and `createUser`) is either an `ApplicationError` carrying one of the
semantic codes 400/409/500, or a `DatabaseError` for which the handler's
explicit storage-kind special case yields the generic 500 message — a
storage error never reaches the client unhandled. -/
theorem storage_error_never_crosses_unwrapped :
    (∀ (id : String) (st : Store) (e : AppErr),
      (userServiceGetUserById id st).1 = .error e →
      (∃ c m, e = .applicationError c m ∧ (c = 400 ∨ c = 409 ∨ c = 500)) ∨
      (∃ m, e = .databaseError m ∧
        userHandlerGetUserByIdCatch e =
          replyInternalServerError "A database error occurred while fetching the user.")) ∧
    (∀ (dto : CreateUserDTO) (st : Store) (e : AppErr),
      (userServiceCreateUser dto st).1 = .error e →
      (∃ c m, e = .applicationError c m ∧ (c = 400 ∨ c = 409 ∨ c = 500)) ∨
      (∃ m, e = .databaseError m ∧
        userHandlerCreateUserCatch e =
          replyInternalServerError "A database error occurred while creating the user.")) := by
  constructor
  · intro id st e h
    rcases getUserById_error_shape id st e h with rfl | rfl
    · exact Or.inl ⟨400, _, rfl, Or.inl rfl⟩
    · exact Or.inr ⟨_, rfl, rfl⟩
  · intro dto st e h
    rcases createUser_error_shape dto st e h with rfl | rfl | rfl
    · exact Or.inl ⟨409, _, rfl, Or.inr (Or.inl rfl)⟩
    · exact Or.inl ⟨500, _, rfl, Or.inr (Or.inr rfl)⟩
    · exact Or.inr ⟨_, rfl, rfl⟩

/-- Witness for C1 at a concrete unreachable store. -/
theorem storage_error_never_crosses_unwrapped_witness :
    (∃ c m, AppErr.databaseError ("Database operation failed: findById " ++ "abc") =
        .applicationError c m ∧ (c = 400 ∨ c = 409 ∨ c = 500)) ∨
    (∃ m, AppErr.databaseError ("Database operation failed: findById " ++ "abc") =
        .databaseError m ∧
      userHandlerGetUserByIdCatch
          (.databaseError ("Database operation failed: findById " ++ "abc")) =
        replyInternalServerError "A database error occurred while fetching the user.") :=
  storage_error_never_crosses_unwrapped.1 "abc" sampleSelectFailStore _ rfl

/-- Claim C5: in `createUser`'s catch, an `ApplicationError` coded 400/409
becomes exactly that status with its own message and every other error
becomes 500 with one of the fixed generic messages; every error actually
reaching `getUserById`'s handler is never a 409, a 400 `ApplicationError`
becomes a 400 with its own message, and everything else becomes 500 with a
fixed generic message. -/
theorem handler_error_status_mapping :
    (∀ e : AppErr,
      (∀ m, e = .applicationError 400 m →
        userHandlerCreateUserCatch e = replyBadRequest m) ∧
      (∀ m, e = .applicationError 409 m →
        userHandlerCreateUserCatch e = replyConflict m) ∧
      ((∀ m, e ≠ .applicationError 400 m ∧ e ≠ .applicationError 409 m) →
        ∃ g ∈ createUserGeneric500,
          userHandlerCreateUserCatch e = replyInternalServerError g)) ∧
    (∀ (id : String) (st : Store) (e : AppErr),
      (userServiceGetUserById id st).1 = .error e →
      (∀ m, e ≠ .applicationError 409 m) ∧
      (∀ m, e = .applicationError 400 m →
        userHandlerGetUserByIdCatch e = replyBadRequest m) ∧
      ((∀ m, e ≠ .applicationError 400 m) →
        ∃ g ∈ getUserGeneric500,
          userHandlerGetUserByIdCatch e = replyInternalServerError g)) := by
  constructor
  · intro e
    refine ⟨?_, ?_, ?_⟩
    · intro m hm; subst hm; rfl
    · intro m hm; subst hm; rfl
    · intro hne
      cases e with
      | applicationError c m =>
          have h4 : c ≠ 400 := fun hc => (hne m).1 (by rw [hc])
          have h9 : c ≠ 409 := fun hc => (hne m).2 (by rw [hc])
          refine ⟨"An unexpected error occurred while creating the user.",
            by simp [createUserGeneric500], ?_⟩
          unfold userHandlerCreateUserCatch
          split
          · next heq => simp_all
          · next heq => simp_all
          · rfl
          · next heq => exact absurd heq (by simp)
          · next heq => exact absurd heq (by simp)
      | databaseError m =>
          exact ⟨"A database error occurred while creating the user.",
            by simp [createUserGeneric500], rfl⟩
      | jsError m =>
          exact ⟨"An unexpected error occurred while creating the user.",
            by simp [createUserGeneric500], rfl⟩
  · intro id st e h
    rcases getUserById_error_shape id st e h with rfl | rfl
    · refine ⟨?_, ?_, ?_⟩
      · intro m hm; simp at hm
      · intro m hm
        injection hm with _ h2
        subst h2
        rfl
      · intro hne
        exact absurd rfl (hne _)
    · refine ⟨?_, ?_, ?_⟩
      · intro m hm; simp at hm
      · intro m hm; simp at hm
      · intro _
        exact ⟨"A database error occurred while fetching the user.",
          by simp [getUserGeneric500], rfl⟩

/-- Witness for C5: a concrete 409 conflict mapping and a concrete
reachable `getUserById` error that is not a 409. -/
theorem handler_error_status_mapping_witness :
    userHandlerCreateUserCatch
        (.applicationError 409 "User with this email already exists.") =
      replyConflict "User with this email already exists." ∧
    AppErr.databaseError ("Database operation failed: findById " ++ "abc") ≠
      .applicationError 409 "x" :=
  ⟨(handler_error_status_mapping.1 _).2.1 _ rfl,
   (handler_error_status_mapping.2 "abc" sampleSelectFailStore _ rfl).1 "x"⟩

/-- Claim C4: `SupabaseUserRepository.create` yields the unique-violation
`DatabaseError` exactly when the store's insert fails with conflict code
`23505`; any other store failure yields the `handleError` message and a
missing post-insert row yields the no-data message (both distinct from the
unique-violation one); a successful insert returns the entity mapped from
the canonical re-read row. -/
theorem repoCreate_error_classification (dto : CreateUserDTO) (st : Store) :
    ((repoCreate dto st).1 =
        .error (.databaseError "Unique constraint violation (e.g., email already exists)") ↔
      ∃ e, st.insertError = some e ∧ e.code = "23505") ∧
    (∀ e, st.insertError = some e → e.code ≠ "23505" →
      (repoCreate dto st).1 =
        .error (.databaseError
          ("Database operation failed: create user with email " ++ dto.email)) ∧
      "Database operation failed: create user with email " ++ dto.email ≠
        "Unique constraint violation (e.g., email already exists)") ∧
    (st.insertError = none → st.insertReturnsRow = false →
      (repoCreate dto st).1 =
        .error (.databaseError "User creation failed: No data returned from database")) ∧
    (st.insertError = none → st.insertReturnsRow = true →
      (repoCreate dto st).1 = .ok (mapRowToDomain (insertedRow st (dbDataOf dto)))) := by
  refine ⟨⟨?_, ?_⟩, ?_, ?_, ?_⟩
  · intro h
    rw [repoCreate_eq] at h
    cases hins : st.insertError with
    | none =>
        cases hr : st.insertReturnsRow <;> simp [hins, hr] at h
    | some e =>
        by_cases hc : e.code = "23505"
        · exact ⟨e, rfl, hc⟩
        · simp [hins, hc] at h
          exact absurd h (dbOpFailed_ne_uniqueMsg dto.email)
  · rintro ⟨e, hins, hc⟩
    rw [repoCreate_eq]
    simp [hins, hc]
  · intro e hins hc
    rw [repoCreate_eq]
    exact ⟨by simp [hins, hc], dbOpFailed_ne_uniqueMsg dto.email⟩
  · intro h1 h2
    rw [repoCreate_eq]
    simp [h1, h2]
  · intro h1 h2
    rw [repoCreate_eq]
    simp [h1, h2]

/-- Witness for C4 at a concrete 23505 insert failure. -/
theorem repoCreate_error_classification_witness :
    (repoCreate sampleDTO sampleUniqueFailStore).1 =
      .error (.databaseError "Unique constraint violation (e.g., email already exists)") :=
  (repoCreate_error_classification sampleDTO sampleUniqueFailStore).1.2
    ⟨⟨"23505", "duplicate key value"⟩, rfl, rfl⟩

/-- Claim C6: the response DTO built by `mapUserToResponse` serializes to
exactly the keys `id`, `email`, `created_at` (never `password`), is
insensitive to the entity's runtime `password` field, and the handlers send
it with 201 on creation and 200 on reads. -/
theorem response_strips_password :
    (∀ u : DomainUser,
      (userResponseFields (mapUserToResponse u)).map Prod.fst =
        ["id", "email", "created_at"] ∧
      "password" ∉ (userResponseFields (mapUserToResponse u)).map Prod.fst) ∧
    (∀ (u : DomainUser) (p : Option String),
      mapUserToResponse { u with password := p } = mapUserToResponse u) ∧
    (∀ (dto : CreateUserDTO) (st : Store) (u : DomainUser) (st' : Store),
      userServiceCreateUser dto st = (.ok u, st') →
      (userHandlerCreateUser dto st).1 = ⟨201, .userBody (mapUserToResponse u)⟩) ∧
    (∀ (id : String) (st : Store) (u : DomainUser) (st' : Store),
      userServiceGetUserById id st = (.ok (some u), st') →
      (userHandlerGetUserById id st).1 = ⟨200, .userBody (mapUserToResponse u)⟩) := by
  refine ⟨?_, ?_, ?_, ?_⟩
  · intro u
    refine ⟨rfl, ?_⟩
    simp [userResponseFields, mapUserToResponse]
  · intro u p
    rfl
  · intro dto st u st' h
    unfold userHandlerCreateUser
    rw [h]
  · intro id st u st' h
    unfold userHandlerGetUserById
    rw [h]

/-- Witness for C6 at a concrete successful creation. -/
theorem response_strips_password_witness :
    (userHandlerCreateUser sampleDTO sampleStore).1 =
      ⟨201, .userBody (mapUserToResponse
        (mapRowToDomain (insertedRow sampleStore (dbDataOf sampleDTO))))⟩ :=
  response_strips_password.2.2.1 sampleDTO sampleStore
    (mapRowToDomain (insertedRow sampleStore (dbDataOf sampleDTO))) _ rfl

/-- Counterexample to claim C8: `mapToDomain` does not reject a present row
lacking `email`, `username`, `password` and the timestamps — it silently
maps it, copying the absent fields through (and giving an Invalid Date). -/
theorem mapToDomain_no_reject_counterexample :
    mapToDomain (some malformedRow) ≠ none ∧
    mapToDomain (some malformedRow) = some (mapRowToDomain malformedRow) ∧
    (mapRowToDomain malformedRow).email = none ∧
    (mapRowToDomain malformedRow).created_at = none := by
  refine ⟨by simp [mapToDomain], rfl, rfl, rfl⟩

/-- Claim C8 (amended): `mapToDomain` returns null exactly on an absent row;
every present row — well-formed or not — is totally and silently mapped
field by field, missing fields being coerced through rather than rejected. -/
theorem mapToDomain_rejects_only_absent :
    (∀ o : Option DbRow, mapToDomain o = none ↔ o = none) ∧
    (∀ r : DbRow, mapToDomain (some r) = some (mapRowToDomain r)) := by
  constructor
  · intro o
    cases o <;> simp [mapToDomain]
  · intro r
    rfl

/-- Counterexample to claim C9: on an unreachable store the handler's 503
body is not exactly `{status, message, timestamp}` — it carries an extra
`error` member embedding the internal reachability failure message. -/
theorem health_503_body_not_exact_counterexample :
    (healthHandler sampleSelectFailStore "2026-01-01T00:00:00Z").1.body.map Prod.fst ≠
      ["status", "message", "timestamp"] ∧
    ("error", "Supabase reachability check failed: connection refused") ∈
      (healthHandler sampleSelectFailStore "2026-01-01T00:00:00Z").1.body := by
  constructor
  · decide
  · decide

/-- Claim C9 (amended): the health handler answers 200
`{status:"ok", timestamp}` when the store check succeeds; on failure it
answers 503 with `{status, message, error, timestamp}` where `error` embeds
the internal failure message, and serializing that body against the
declared 503 response schema retains exactly `{status, message, timestamp}`
with no internal details. -/
theorem health_endpoint_status_bodies (st : Store) (nowIso : String) :
    (st.selectError = none →
      (healthHandler st nowIso).1 =
        ⟨200, [("status", "ok"), ("timestamp", nowIso)]⟩) ∧
    (∀ e, st.selectError = some e →
      (healthHandler st nowIso).1.status = 503 ∧
      (healthHandler st nowIso).1.body =
        [("status", "error"), ("message", "Service unavailable"),
         ("error", "Supabase reachability check failed: " ++ e.message),
         ("timestamp", nowIso)] ∧
      serializeWithSchema health503SchemaProps ((healthHandler st nowIso).1.body) =
        [("status", "error"), ("message", "Service unavailable"),
         ("timestamp", nowIso)]) := by
  constructor
  · intro h
    unfold healthHandler
    rw [h]
  · intro e h
    unfold healthHandler
    rw [h]
    exact ⟨rfl, rfl, rfl⟩

/-- Witness for the amended C9 at a concrete healthy and a concrete
unreachable store. -/
theorem health_endpoint_status_bodies_witness :
    (healthHandler sampleStore "t0").1 =
      ⟨200, [("status", "ok"), ("timestamp", "t0")]⟩ ∧
    (healthHandler sampleSelectFailStore "t0").1.status = 503 ∧
    (healthHandler sampleSelectFailStore "t0").1.body =
      [("status", "error"), ("message", "Service unavailable"),
       ("error", "Supabase reachability check failed: " ++
         (PgError.mk "08006" "connection refused").message),
       ("timestamp", "t0")] ∧
    serializeWithSchema health503SchemaProps
        ((healthHandler sampleSelectFailStore "t0").1.body) =
      [("status", "error"), ("message", "Service unavailable"), ("timestamp", "t0")] :=
  ⟨(health_endpoint_status_bodies sampleStore "t0").1 rfl,
   (health_endpoint_status_bodies sampleSelectFailStore "t0").2
     ⟨"08006", "connection refused"⟩ rfl⟩
